import Mathlib

/-
  Verification development for the context-engine repository.

  The TypeScript source is shallowly embedded in Lean:
  * JS strings are modelled as lists of characters (`Str`); `String.length`,
    `slice`, `split`, `includes`, `trim` … are re-implemented with JS
    semantics on `Str`.
  * JS numbers are modelled by the exact-rational type `JsNum` below where
    the code does fractional arithmetic, and by `ℕ` where the code only
    handles non-negative integers (token counts, lengths).  `Math.sqrt` is
    modelled by an exact integer-square-root construction that agrees with
    the real square root on perfect-square rationals; every concrete input
    evaluated in this file has perfect-square norms, so the model is exact
    there.  The numeric literals 0.8, 0.9, 0.4 … are modelled by the exact
    rationals they denote; at every comparison performed in this file the
    double rounding of those literals cannot change the outcome.
  * Class instances become explicit state values (e.g. the Beta-mixture
    gate's observation buffer), mutating methods return the new state.
  * `async` functions of pure computations are modelled as pure functions;
    external callbacks (the summariser LLM, memory tools) are function
    parameters.  Ambient effects (`Date.now()`, `generateId()`) are passed
    in as explicit parameters.
-/

set_option maxRecDepth 100000

/-- Character-list model of JavaScript strings. -/
abbrev Str := List Char

/-- Convert a Lean string literal into the `Str` model. -/
def sl (s : String) : Str := s.data

/-- JS `\s` (whitespace) character class, as used by `trim`, `\s+` and split
regexes in the source. -/
def isJsSpace (c : Char) : Bool :=
  let n := c.toNat
  n == 32 || (9 ≤ n && n ≤ 13) || n == 0xa0 || n == 0x1680 ||
  (0x2000 ≤ n && n ≤ 0x200a) || n == 0x2028 || n == 0x2029 ||
  n == 0x202f || n == 0x205f || n == 0x3000 || n == 0xfeff

/-- JS `\w` (word) character class `[A-Za-z0-9_]`, used by `\b` boundaries. -/
def isWordChar (c : Char) : Bool :=
  c.isAlphanum || c == Char.ofNat 95

/-- JS `String.prototype.trim`. -/
def jsTrim (s : Str) : Str :=
  ((s.dropWhile isJsSpace).reverse.dropWhile isJsSpace).reverse

/-- JS `toLowerCase`, restricted to ASCII (sufficient for this code base:
all letters in the source's patterns are ASCII, CJK is case-invariant). -/
def jsLower (s : Str) : Str := s.map Char.toLower

/-- JS `split` with a single-character string separator: returns the pieces
between separator occurrences, keeping empty pieces (`"".split` = `[""]`). -/
def splitOnChar (sep : Char) : Str → List Str
  | [] => [[]]
  | c :: rest =>
    let r := splitOnChar sep rest
    if c == sep then [] :: r
    else
      match r with
      | [] => [[c]]
      | h :: t => (c :: h) :: t

/-- Fuel-driven worker for `splitRuns` (structural recursion so that the
kernel can evaluate it; each step consumes at least one character, so the
fuel `length + 1` is never exhausted). -/
def splitRunsGo (p : Char → Bool) : Nat → Str → List Str
  | 0, s => [s]
  | _ + 1, [] => [[]]
  | fuel + 1, c :: rest =>
    if p c then [] :: splitRunsGo p fuel (rest.dropWhile p)
    else
      match splitRunsGo p fuel rest with
      | [] => [[c]]
      | h :: t => (c :: h) :: t

/-- JS `split` with a `/X+/`-style regex: splits at maximal runs of
separator characters, keeping empty pieces at the ends. -/
def splitRuns (p : Char → Bool) (s : Str) : List Str :=
  splitRunsGo p (s.length + 1) s

/-- JS `String.prototype.includes` (contiguous-substring test). -/
def containsSeq (needle : Str) : Str → Bool
  | [] => needle.isEmpty
  | c :: rest => needle.isPrefixOf (c :: rest) || containsSeq needle rest

/- ======================================================================
   The number model
   ====================================================================== -/

/-- Exact rational model of a JavaScript number, kept as an UNREDUCED
numerator/denominator pair so that every arithmetic operation and
comparison is a plain `Int`/`Nat` computation the kernel can evaluate.
The denominator is positive in every value the embedded code constructs.
Two `JsNum`s denote the same number iff they cross-multiply equally; the
code below only ever compares numbers with `<`/`≤`/`>`/`≥`, which are
modelled by cross-multiplication, so the non-canonical representation is
unobservable. -/
structure JsNum where
  num : Int
  den : Nat
deriving Repr, DecidableEq

/-- Numeric literals. -/
instance (n : Nat) : OfNat JsNum n := ⟨⟨n, 1⟩⟩

/-- Embed a run-time natural number (JS integers in the source). -/
def JsNum.ofNat (n : Nat) : JsNum := ⟨n, 1⟩

/-- Addition. -/
instance : Add JsNum :=
  ⟨fun a b => ⟨a.num * b.den + b.num * a.den, a.den * b.den⟩⟩

/-- Subtraction. -/
instance : Sub JsNum :=
  ⟨fun a b => ⟨a.num * b.den - b.num * a.den, a.den * b.den⟩⟩

/-- Multiplication. -/
instance : Mul JsNum := ⟨fun a b => ⟨a.num * b.num, a.den * b.den⟩⟩

/-- Division (the embedded code never divides by zero: every denominator
it builds is positive). -/
instance : Div JsNum :=
  ⟨fun a b =>
    ⟨a.num * b.den * (if b.num < 0 then -1 else 1), a.den * b.num.natAbs⟩⟩

/-- Order by cross-multiplication (denominators are positive). -/
instance : LE JsNum := ⟨fun a b => a.num * b.den ≤ b.num * a.den⟩

/-- Strict order by cross-multiplication. -/
instance : LT JsNum := ⟨fun a b => a.num * b.den < b.num * a.den⟩

instance (a b : JsNum) : Decidable (a ≤ b) :=
  inferInstanceAs (Decidable (a.num * b.den ≤ b.num * a.den))

instance (a b : JsNum) : Decidable (a < b) :=
  inferInstanceAs (Decidable (a.num * b.den < b.num * a.den))

/-- Sum of a number list (`Array.prototype.reduce` with `+`). -/
def JsNum.sum (l : List JsNum) : JsNum := l.foldl (fun a b => a + b) 0

/-- `Math.floor` of `len * percentile` for a non-negative factor, used by
the Beta-mixture gate: `⌊len · (p.num/p.den)⌋ = len · p.num / p.den` in
natural-number division. -/
def JsNum.floorScale (len : Nat) (p : JsNum) : Nat :=
  len * p.num.toNat / p.den

/-- `Math.round` (half away from zero is half-up for the non-negative
scores it is applied to): `⌊x + 1/2⌋ = ⌊(2·num + den) / (2·den)⌋`. -/
def JsNum.round (q : JsNum) : Int := Int.fdiv (2 * q.num + q.den) (2 * q.den)

/-- `Math.min` on numbers. -/
def JsNum.minN (a b : JsNum) : JsNum := if decide (a ≤ b) then a else b

/-- Heron iteration for the integer square root (kernel-reducible fuel
recursion; the fuel is never exhausted because the iterate strictly
decreases until the fixpoint). -/
def natSqrtIter : Nat → Nat → Nat → Nat
  | 0, _, x => x
  | fuel + 1, n, x =>
    let x2 := (x + n / x) / 2
    if x2 < x then natSqrtIter fuel n x2 else x

/-- Integer square root (floor), agreeing with `Nat.sqrt`. -/
def natSqrt (n : Nat) : Nat :=
  if n ≤ 1 then n else natSqrtIter n n ((n + 2) / 2)

/-- `Math.sqrt` on the rational model:
`√(num/den) = √(num·den)/den`, computed with the integer square root.
This is EXACT whenever the argument is the square of a rational — which
holds for every concrete input evaluated in this file — and a floor
approximation otherwise (the double-precision `Math.sqrt` is likewise
inexact there).  Negative arguments (JS `NaN`) never occur: the function
is only applied to sums of squares. -/
def jsSqrt (q : JsNum) : JsNum :=
  ⟨Int.ofNat (natSqrt (q.num.toNat * q.den)), q.den⟩

/-- Stable insertion into a sorted list: `x` goes before the first
element NOT strictly below it. -/
def orderedInsert {α : Type} (le : α → α → Bool) (x : α) : List α → List α
  | [] => [x]
  | y :: ys =>
    if le y x && !(le x y) then y :: orderedInsert le x ys
    else x :: y :: ys

/-- JS `Array.prototype.sort` with a comparator: a stable sort with
respect to the total preorder `le` (`le a b` = "the comparator orders `a`
at or before `b`").  Modern JS sorts are stable, and any two stable sorts
of the same list under the same total preorder coincide. -/
def jsSort {α : Type} (le : α → α → Bool) : List α → List α
  | [] => []
  | x :: xs => orderedInsert le x (jsSort le xs)

/- ======================================================================
   src/utils/embedding.ts
   ====================================================================== -/

/-- Shallow embedding of `cosineSimilarity` (src/utils/embedding.ts):
`dot / (Math.sqrt(normA) * Math.sqrt(normB) + 1e-10)`.  The function is
only ever applied to equal-length vectors in the source. -/
def cosineSimilarity (a b : List JsNum) : JsNum :=
  let dot := JsNum.sum (List.zipWith (fun x y => x * y) a b)
  let normA := JsNum.sum (a.map (fun x => x * x))
  let normB := JsNum.sum (b.map (fun x => x * x))
  dot / (jsSqrt normA * jsSqrt normB + 1 / 10000000000)

/- ======================================================================
   src/types.ts — the entities used by the claims
   ====================================================================== -/

/-- The `Theme` record of src/types.ts.  `embedding?: number[]` becomes an
`Option`; `message_count`, `last_active` are non-negative integers. -/
structure Theme where
  theme_id : Str
  name : Str
  summary : Str
  semantic_ids : List Str
  message_count : Nat
  last_active : Nat
  embedding : Option (List JsNum)
  knn_neighbors : List Str
deriving Repr, DecidableEq

/-- The `Semantic` record of src/types.ts. -/
structure Semantic where
  semantic_id : Str
  theme_id : Str
  content : Str
  episode_ids : List Str
  created_at : Nat
  updated_at : Nat
  embedding : Option (List JsNum)
  knn_neighbors : List Str
deriving Repr, DecidableEq

/-- The `Episode` record of src/types.ts. -/
structure Episode where
  episode_id : Str
  summary : Str
  turn_start : Nat
  turn_end : Nat
  message_count : Nat
  session_id : Str
  created_at : Nat
  embedding : Option (List JsNum)
  raw_messages : Str
deriving Repr, DecidableEq

/-- A chat message (src/types.ts `Message`). -/
structure Message where
  role : Str
  content : Str
  timestamp : Option Nat
deriving Repr, DecidableEq

/-- Default values standing in for out-of-bounds accesses that cannot occur
on the inputs the source is actually called with. -/
def dfltSemantic : Semantic :=
  ⟨[], [], [], [], 0, 0, Option.none, []⟩

/-- Default theme for out-of-bounds list reads (never hit on source-typed
inputs). -/
def dfltTheme : Theme :=
  ⟨[], [], [], [], 0, 0, Option.none, []⟩

/-- Default episode for out-of-bounds list reads. -/
def dfltEpisode : Episode :=
  ⟨[], [], 0, 0, 0, [], 0, Option.none, []⟩

/- ======================================================================
   src/layers/theme-manager.ts
   ====================================================================== -/

/-- `MAX_SEMANTICS_PER_THEME` (src/layers/theme-manager.ts). -/
def MAX_SEMANTICS_PER_THEME : Nat := 12

/-- `MIN_SEMANTICS_PER_THEME` (src/layers/theme-manager.ts). -/
def MIN_SEMANTICS_PER_THEME : Nat := 3

/-- `MERGE_SIMILARITY_THRESHOLD` = 0.8. -/
def MERGE_SIMILARITY_THRESHOLD : JsNum := 8 / 10

/-- State of a `BetaMixtureGate`: the observation ring and its bound. -/
structure BetaMixtureGate where
  observations : List JsNum
  maxObs : Nat
deriving Repr, DecidableEq

/-- A freshly constructed gate (`new BetaMixtureGate()`, maxObs = 100). -/
def BetaMixtureGate.fresh : BetaMixtureGate := ⟨[], 100⟩

/-- `BetaMixtureGate.observe`: push the value, drop the oldest observation
when the buffer exceeds `maxObs`. -/
def BetaMixtureGate.observe (g : BetaMixtureGate) (value : JsNum) : BetaMixtureGate :=
  let obs := g.observations ++ [value]
  ⟨if obs.length > g.maxObs then obs.drop 1 else obs, g.maxObs⟩

/-- `BetaMixtureGate.shouldTriggerUpper`: with fewer than 10 observations
compare against the fixed threshold, otherwise against the empirical upper
`percentile` of the sorted observations. -/
def BetaMixtureGate.shouldTriggerUpper (g : BetaMixtureGate)
    (value fixedThreshold percentile : JsNum) : Bool :=
  if g.observations.length < 10 then decide (value > fixedThreshold)
  else
    let sorted := jsSort (fun a b => decide (a ≤ b)) g.observations
    let idx := JsNum.floorScale g.observations.length percentile
    decide (value > sorted.getD idx 0)

/-- `ThemeManager.shouldMerge` (src/layers/theme-manager.ts, lines 229-238).
The merge gate's state is threaded explicitly (`this.mergeGate.observe`
mutates it); the function returns the decision together with the updated
gate. -/
def ThemeManager.shouldMerge (mergeGate : BetaMixtureGate)
    (theme1 theme2 : Theme) : Bool × BetaMixtureGate :=
  if theme1.semantic_ids.length ≥ MIN_SEMANTICS_PER_THEME ∧
     theme2.semantic_ids.length ≥ MIN_SEMANTICS_PER_THEME then
    (false, mergeGate)
  else
    match theme1.embedding, theme2.embedding with
    | some e1, some e2 =>
      let sim := cosineSimilarity e1 e2
      let g := mergeGate.observe sim
      (g.shouldTriggerUpper sim MERGE_SIMILARITY_THRESHOLD (9 / 10), g)
    | _, _ => (false, mergeGate)

/-- The embedding of a semantic as used inside `splitTheme`, whose TS type
`Semantic & { embedding: number[] }` guarantees presence; the default is
never reached on source-typed inputs. -/
def semEmb (s : Semantic) : List JsNum := s.embedding.getD []

/-- `ThemeManager.centroid`: component-wise mean over the dimension of the
first vector. -/
def ThemeManager.centroid (vectors : List (List JsNum)) : List JsNum :=
  let dim := (vectors.headD []).length
  (List.range dim).map
    (fun i => JsNum.sum (vectors.map (fun v => v.getD i 0)) / JsNum.ofNat vectors.length)

/-- One iteration of the 2-means loop inside `splitTheme`: assign every
semantic to the closer centroid (`sim1 >= sim2` goes to group 1), then
update each centroid to its group's mean when the group is non-empty. -/
def ThemeManager.kmeansStep (semantics : List Semantic) (c : List JsNum × List JsNum) :
    (List Semantic × List Semantic) × (List JsNum × List JsNum) :=
  let p := fun s =>
    decide (cosineSimilarity (semEmb s) c.2 ≤ cosineSimilarity (semEmb s) c.1)
  let group1 := semantics.filter p
  let group2 := semantics.filter (fun s => ! p s)
  let c1 := if group1.length > 0 then ThemeManager.centroid (group1.map semEmb) else c.1
  let c2 := if group2.length > 0 then ThemeManager.centroid (group2.map semEmb) else c.2
  ((group1, group2), (c1, c2))

/-- The `for (let iter = 0; iter < 3; iter++)` loop of `splitTheme`:
returns the groups computed in the last iteration together with the final
centroids. -/
def ThemeManager.kmeansLoop (semantics : List Semantic) :
    Nat → (List JsNum × List JsNum) → (List Semantic × List Semantic) × (List JsNum × List JsNum)
  | 0, c => (([], []), c)
  | 1, c => ThemeManager.kmeansStep semantics c
  | n + 2, c =>
    ThemeManager.kmeansLoop semantics (n + 1) (ThemeManager.kmeansStep semantics c).2

/-- The non-empty-group enforcement of `splitTheme`:
`if (group1.length === 0) group1.push(group2.pop()); if (group2.length === 0)
group2.push(group1.pop())`. -/
def ThemeManager.ensureNonEmpty (g1 g2 : List Semantic) :
    List Semantic × List Semantic :=
  let p1 := if g1.isEmpty then (g1 ++ [g2.getLastD dfltSemantic], g2.dropLast)
            else (g1, g2)
  if p1.2.isEmpty then (p1.1.dropLast, p1.2 ++ [p1.1.getLastD dfltSemantic])
  else p1

/-- `THEME_NAME_PROMPT` of src/layers/theme-manager.ts. -/
def THEME_NAME_PROMPT : Str :=
  sl ("Given these semantic facts, generate a short theme name (2-4 words) that captures their common topic. Output ONLY the name, no explanation. Write in the same language as the facts.")

/-- `ThemeManager.splitTheme` (src/layers/theme-manager.ts, lines 156-222):
2-means over the member semantics' embeddings (3 iterations, seeded with
the first and last member), non-empty-group enforcement, and construction
of the two child themes.  `llmCall` is the summariser; `id1`, `id2` stand
for the two `generateId()` results and `now` for `Date.now()`. -/
def ThemeManager.splitTheme (theme : Theme) (semantics : List Semantic)
    (llmCall : Str → Str) (id1 id2 : Str) (now : Nat) : Theme × Theme :=
  let n := semantics.length
  let c1 := semEmb (semantics.headD dfltSemantic)
  let c2 := semEmb (semantics.getD (n - 1) dfltSemantic)
  let r := ThemeManager.kmeansLoop semantics 3 (c1, c2)
  let g := ThemeManager.ensureNonEmpty r.1.1 r.1.2
  let group1 := g.1
  let group2 := g.2
  let facts1 := List.intercalate (sl ("\n- ")) (group1.map (fun s => s.content))
  let facts2 := List.intercalate (sl ("\n- ")) (group2.map (fun s => s.content))
  let name1 := llmCall (THEME_NAME_PROMPT ++ sl ("\n\nFacts:\n- ") ++ facts1)
  let name2 := llmCall (THEME_NAME_PROMPT ++ sl ("\n\nFacts:\n- ") ++ facts2)
  let theme1 : Theme :=
    { theme_id := id1
      name := (jsTrim name1).take 50
      summary := List.intercalate (sl ("; ")) ((group1.map (fun s => s.content)).take 3)
      semantic_ids := group1.map (fun s => s.semantic_id)
      message_count := theme.message_count / 2
      last_active := now
      embedding := some r.2.1
      knn_neighbors := [] }
  let theme2 : Theme :=
    { theme_id := id2
      name := (jsTrim name2).take 50
      summary := List.intercalate (sl ("; ")) ((group2.map (fun s => s.content)).take 3)
      semantic_ids := group2.map (fun s => s.semantic_id)
      message_count := theme.message_count - theme1.message_count
      last_active := now
      embedding := some r.2.2
      knn_neighbors := [] }
  (theme1, theme2)

/- ======================================================================
   src/layers/storage.ts — the vector-store port (LanceDB)
   ====================================================================== -/

/-- Contents of the three tables the retriever touches.  The LanceDB
tables are modelled as plain row lists. -/
structure StorageState where
  themes : List Theme
  semantics : List Semantic
  episodes : List Episode
deriving Repr

/-- `StorageLayer.searchThemes`: the external ANN index
(`table.search(vector).limit(n)`) is modelled as an exact ranking of the
rows by cosine similarity to the query vector (descending), truncated to
the limit. -/
def StorageLayer.searchThemes (st : StorageState) (vector : List JsNum)
    (limit : Nat) : List Theme :=
  (jsSort (fun a b =>
    decide (cosineSimilarity vector (b.embedding.getD []) ≤
            cosineSimilarity vector (a.embedding.getD []))) st.themes).take limit

/-- `StorageLayer.getSemanticsByTheme`:
`table.filter("theme_id = '<id>'")`. -/
def StorageLayer.getSemanticsByTheme (st : StorageState) (themeId : Str) :
    List Semantic :=
  st.semantics.filter (fun s => s.theme_id == themeId)

/-- `StorageLayer.getEpisodesByIds`: an empty id list short-circuits to
`[]`; otherwise `table.filter("episode_id = id1 OR episode_id = id2 …")`. -/
def StorageLayer.getEpisodesByIds (st : StorageState) (ids : List Str) :
    List Episode :=
  if ids.isEmpty then []
  else st.episodes.filter (fun e => ids.contains e.episode_id)

/- ======================================================================
   src/layers/predictive-preloader.ts — TopDownRetriever
   ====================================================================== -/

/-- Index of the first strict maximum of a score list — the
`for (i …) if (score > bestScore) { bestScore = score; bestIdx = i }`
scan with `bestScore` initialised to `-Infinity`. -/
def argmaxGo : List JsNum → Nat → Nat → JsNum → Nat
  | [], _, bestIdx, _ => bestIdx
  | x :: rest, i, bestIdx, bestScore =>
    if x > bestScore then argmaxGo rest (i + 1) i x
    else argmaxGo rest (i + 1) bestIdx bestScore

/-- First-strict-maximum index (0 on the empty list, which the source
never hits because the loop requires `remaining.length > 0`). -/
def argmaxIdx : List JsNum → Nat
  | [] => 0
  | x :: rest => argmaxGo rest 1 0 x

/-- Greedy submodular score of a candidate theme in Stage I:
`alpha * coverageGain + (1 - alpha) * relevance`. -/
def TopDownRetriever.themeScore (queryEmbedding : List JsNum) (alpha : JsNum)
    (covered : List Str) (theme : Theme) : JsNum :=
  let newSemantics := (theme.semantic_ids.filter
    (fun id => ! covered.contains id)).length
  let coverageGain :=
    JsNum.ofNat newSemantics / (JsNum.ofNat theme.semantic_ids.length + 1)
  let relevance :=
    match theme.embedding with
    | some e => cosineSimilarity queryEmbedding e
    | Option.none => 0
  alpha * coverageGain + (1 - alpha) * relevance

/-- The `while (remaining.length > 0 && selected.length < 3)` greedy loop
of Stage I; the fuel argument counts the remaining slots (3 initially). -/
def TopDownRetriever.greedyLoop (queryEmbedding : List JsNum) (alpha : JsNum) :
    Nat → List Theme → List Theme → List Str → List Theme
  | 0, selected, _, _ => selected
  | fuel + 1, selected, remaining, covered =>
    if remaining.isEmpty then selected
    else
      let scores := remaining.map
        (TopDownRetriever.themeScore queryEmbedding alpha covered)
      let bestIdx := argmaxIdx scores
      let chosen := remaining.getD bestIdx dfltTheme
      TopDownRetriever.greedyLoop queryEmbedding alpha fuel
        (selected ++ [chosen]) (remaining.eraseIdx bestIdx)
        (covered ++ chosen.semantic_ids)

/-- Query-relevance score of a semantic in Stage I
(`s.embedding ? cosineSimilarity(queryEmbedding, s.embedding) : 0`). -/
def TopDownRetriever.semanticScore (queryEmbedding : List JsNum) (s : Semantic) : JsNum :=
  match s.embedding with
  | some e => cosineSimilarity queryEmbedding e
  | Option.none => 0

/-- `TopDownRetriever.stageI` (src/layers/predictive-preloader.ts,
lines 126-200): fetch up to 5 candidate themes, greedily select up to 3 by
coverage + relevance, gather their semantics and keep the 10 most
query-relevant ones. -/
def TopDownRetriever.stageI (st : StorageState) (queryEmbedding : List JsNum) :
    List Theme × List Semantic :=
  let candidateThemes := StorageLayer.searchThemes st queryEmbedding 5
  if candidateThemes.isEmpty then ([], [])
  else
    let alpha : JsNum := 1 / 2
    let selected :=
      TopDownRetriever.greedyLoop queryEmbedding alpha 3 [] candidateThemes []
    let allSemantics :=
      (selected.map (fun t => StorageLayer.getSemanticsByTheme st t.theme_id)).flatten
    let ranked :=
      ((jsSort (fun a b =>
        decide (TopDownRetriever.semanticScore queryEmbedding b ≤
                TopDownRetriever.semanticScore queryEmbedding a)) allSemantics).take 10)
    (selected, ranked)

/-- Insertion-ordered deduplication — JS `[...new Set(xs)]`. -/
def dedupFirstAux : List Str → List Str → List Str
  | [], _ => []
  | x :: rest, seen =>
    if seen.contains x then dedupFirstAux rest seen
    else x :: dedupFirstAux rest (x :: seen)

/-- `[...new Set(xs)]`: keep the first occurrence of every element. -/
def dedupFirst (l : List Str) : List Str := dedupFirstAux l []

/-- Token estimate of an episode in Stage II:
`Math.ceil(ep.summary.length / 4)`. -/
def episodeTokens (ep : Episode) : Nat := (ep.summary.length + 3) / 4

/-- The episode budget loop of Stage II: keep episodes in order while the
running token count stays within the budget; `break` on the first overflow. -/
def keepWithinBudget (budget : JsNum) : List Episode → JsNum → List Episode
  | [], _ => []
  | ep :: rest, tokenCount =>
    let epTokens : JsNum := JsNum.ofNat (episodeTokens ep)
    if tokenCount + epTokens > budget then []
    else ep :: keepWithinBudget budget rest (tokenCount + epTokens)

/-- The result record of `stageII`.  The decision is carried as the string
the TS code produces (`"YES"`, `"PARTIAL"` or `"NO"`). -/
structure Stage2Result where
  decision : Str
  episodes : List Episode
deriving Repr

/-- The Stage II prompt string built from the surviving semantics. -/
def stageIIPrompt (queryText : Str) (semantics : List Semantic) : Str :=
  let semanticContext :=
    List.intercalate (sl ("\n")) (semantics.map (fun s => sl ("- ") ++ s.content))
  sl ("Given these facts:\n") ++ semanticContext ++
  sl ("\n\nCan they fully answer this question: \"") ++ queryText ++
  sl ("\"?\nReply with exactly one word: YES, PARTIAL, or NO.")

/-- `TopDownRetriever.stageII` (src/layers/predictive-preloader.ts,
lines 206-249): ask the summariser, normalise the response with
`trim().toUpperCase()`; on `"YES"` return no episodes, otherwise expand to
the episodes referenced by the semantics, kept within 40% of the token
budget; the returned decision is `"PARTIAL"` when the normalised response
equals `"PARTIAL"` and `"NO"` in every other case. -/
def TopDownRetriever.stageII (st : StorageState) (tokenBudget : JsNum)
    (queryText : Str) (semantics : List Semantic) (llmCall : Str → Str) :
    Stage2Result :=
  let response := llmCall (stageIIPrompt queryText semantics)
  let decision := (jsTrim response).map Char.toUpper
  if decision == sl ("YES") then ⟨sl ("YES"), []⟩
  else
    let episodeIds := dedupFirst ((semantics.map (fun s => s.episode_ids)).flatten)
    let episodes := StorageLayer.getEpisodesByIds st episodeIds
    let budgetForEpisodes := tokenBudget * (4 / 10)
    let kept := keepWithinBudget budgetForEpisodes episodes 0
    ⟨if decision == sl ("PARTIAL") then sl ("PARTIAL") else sl ("NO"), kept⟩

/-- The result record of `retrieve` (src/types.ts `RetrievalResult`). -/
structure RetrievalResult where
  themes : List Theme
  semantics : List Semantic
  episodes : List Episode
  stage2_decision : Str
  total_tokens : Nat
deriving Repr

/-- `TopDownRetriever.retrieve` (src/layers/predictive-preloader.ts,
lines 77-120): Stage I, the empty-semantics short-circuit to `"NO"`,
Stage II, and the token totals. -/
def TopDownRetriever.retrieve (st : StorageState) (tokenBudget : JsNum)
    (queryEmbedding : List JsNum) (queryText : Str) (llmCall : Str → Str) :
    RetrievalResult :=
  let s1 := TopDownRetriever.stageI st queryEmbedding
  let themes := s1.1
  let semantics := s1.2
  if semantics.isEmpty then
    ⟨[], [], [], sl ("NO"), 0⟩
  else
    let s2 := TopDownRetriever.stageII st tokenBudget queryText semantics llmCall
    let themeTokens := themes.length * 15
    let semanticTokens := (semantics.map (fun s => (s.content.length + 3) / 4)).sum
    let epTokens := (s2.episodes.map episodeTokens).sum
    ⟨themes, semantics, s2.episodes, s2.decision,
     themeTokens + semanticTokens + epTokens⟩

/- ======================================================================
   src/layers/budget-manager.ts
   ====================================================================== -/

/-- CJK character class of `estimateTokens`
(`[一-鿿぀-ゟ゠-ヿ]`). -/
def isCjkChar (c : Char) : Bool :=
  let n := c.toNat
  (0x4e00 ≤ n && n ≤ 0x9fff) || (0x3040 ≤ n && n ≤ 0x309f) ||
  (0x30a0 ≤ n && n ≤ 0x30ff)

/-- `BudgetManager.estimateTokens`: `Math.ceil(nonCjk / 4 + cjk / 2)`,
written as the equivalent integer ceiling `⌈(nonCjk + 2·cjk) / 4⌉`. -/
def BudgetManager.estimateTokens (text : Str) : Nat :=
  let cjk := text.countP isCjkChar
  let nonCjk := text.length - cjk
  (nonCjk + 2 * cjk + 3) / 4

/-- An input item of `BudgetManager.allocate`. -/
structure BudgetItem where
  tier : Str
  label : Str
  content : Str
deriving Repr, DecidableEq

/-- The `BudgetAllocation` record. -/
structure BudgetAllocation where
  tier : Str
  label : Str
  tokens : Nat
  maxTokens : Nat
  content : Str
  trimmed : Bool
deriving Repr, DecidableEq

/-- The `BudgetReport` record. -/
structure BudgetReport where
  totalBudget : Nat
  totalUsed : Nat
  savings : Int
  allocations : List BudgetAllocation
deriving Repr, DecidableEq

/-- The default tier ratios of the budget manager, as percentages
(identity 10, workspace 35, memory 30, tools 15, extras 10; unknown tiers
get 0 so that `tierBudgets[tier] || 0` is folded in). -/
def BudgetManager.tierRatioPct (tier : Str) : Nat :=
  if tier == sl ("identity") then 10
  else if tier == sl ("workspace") then 35
  else if tier == sl ("memory") then 30
  else if tier == sl ("tools") then 15
  else if tier == sl ("extras") then 10
  else 0

/-- Per-tier budget `Math.floor(totalBudget * ratio)`, written as the
exact rational floor `totalBudget * pct / 100`. -/
def BudgetManager.tierBudget (totalBudget : Nat) (tier : Str) : Nat :=
  totalBudget * BudgetManager.tierRatioPct tier / 100

/-- The inner loop of `trimToTokens`: keep whole lines while the running
per-line estimate stays within `maxTokens`; `break` at the first line that
does not fit. -/
def BudgetManager.trimGo (maxTokens : Nat) : List Str → Nat → List Str
  | [], _ => []
  | line :: rest, tokens =>
    let lt := BudgetManager.estimateTokens line
    if tokens + lt > maxTokens then []
    else line :: BudgetManager.trimGo maxTokens rest (tokens + lt)

/-- `BudgetManager.trimToTokens`: split on `"\n"`, keep a prefix of lines
within the token target, re-join with `"\n"`. -/
def BudgetManager.trimToTokens (content : Str) (maxTokens : Nat) : Str :=
  List.intercalate (sl ("\n"))
    (BudgetManager.trimGo maxTokens (splitOnChar (Char.ofNat 10) content) 0)

/-- One step of the per-tier admission loop of `allocate` (phase 1).
State: emitted allocations, `tierUsed`, and the running `originalTotal`
contribution.  JS computes `remaining = maxForTier - tierUsed` as a signed
number; a negative remainder fails `remaining > 50` exactly like the
truncated `Nat` subtraction used here. -/
def BudgetManager.tierStep (maxForTier : Nat)
    (st : List BudgetAllocation × Nat × Nat) (item : BudgetItem) :
    List BudgetAllocation × Nat × Nat :=
  let allocs := st.1
  let tierUsed := st.2.1
  let orig := st.2.2
  let tokens := BudgetManager.estimateTokens item.content
  let orig := orig + tokens
  if tierUsed + tokens ≤ maxForTier then
    (allocs ++ [⟨item.tier, item.label, tokens, maxForTier, item.content, false⟩],
     tierUsed + tokens, orig)
  else
    let remaining := maxForTier - tierUsed
    if remaining > 50 then
      let t := BudgetManager.trimToTokens item.content remaining
      let trimmedTokens := BudgetManager.estimateTokens t
      (allocs ++ [⟨item.tier, item.label, trimmedTokens, maxForTier, t, true⟩],
       tierUsed + trimmedTokens, orig)
    else (allocs, tierUsed, orig)

/-- Phase 1 of `allocate`: process tiers in priority order; items are
grouped by tier preserving input order.  Returns (allocations, totalUsed,
originalTotal). -/
def BudgetManager.phase1 (totalBudget : Nat) (items : List BudgetItem) :
    List BudgetAllocation × Nat × Nat :=
  let tierOrder := [sl ("identity"), sl ("workspace"), sl ("memory"),
                    sl ("tools"), sl ("extras")]
  tierOrder.foldl
    (fun st tier =>
      let tierItems := items.filter (fun it => it.tier == tier)
      let maxForTier := BudgetManager.tierBudget totalBudget tier
      let r := tierItems.foldl (BudgetManager.tierStep maxForTier) ([], 0, 0)
      (st.1 ++ r.1, st.2.1 + r.2.1, st.2.2 + r.2.2))
    ([], 0, 0)

/-- The `for (let i = allocations.length - 1; i >= 0 && trimmed < excess; i--)`
loop of `allocate` (phase 2), runnning over the REVERSED allocation list so
that the head is the last allocation.  Returns the processed (still
reversed) allocations and the total number of trimmed tokens. -/
def BudgetManager.phase2Go (excess : Nat) :
    List BudgetAllocation → Nat → List BudgetAllocation × Nat
  | [], trimmed => ([], trimmed)
  | alloc :: rest, trimmed =>
    if trimmed ≥ excess then (alloc :: rest, trimmed)
    else if alloc.tier == sl ("identity") then
      let r := BudgetManager.phase2Go excess rest trimmed
      (alloc :: r.1, r.2)
    else
      let canTrim := min alloc.tokens (excess - trimmed)
      if canTrim ≥ alloc.tokens then
        let r := BudgetManager.phase2Go excess rest (trimmed + alloc.tokens)
        ({ alloc with content := [], tokens := 0, trimmed := true } :: r.1, r.2)
      else
        let newContent :=
          BudgetManager.trimToTokens alloc.content (alloc.tokens - canTrim)
        let newTokens := BudgetManager.estimateTokens newContent
        let r := BudgetManager.phase2Go excess rest
          (trimmed + (alloc.tokens - newTokens))
        let a := { alloc with content := newContent, tokens := newTokens, trimmed := true }
        (a :: r.1, r.2)

/-- Phase 2 of `allocate` on the forward allocation list: trim from the
lowest tier upward (list tail first), never touching `identity`. -/
def BudgetManager.trimExcess (allocations : List BudgetAllocation)
    (excess : Nat) : List BudgetAllocation × Nat :=
  let r := BudgetManager.phase2Go excess allocations.reverse 0
  (r.1.reverse, r.2)

/-- `BudgetManager.allocate` (src/layers/budget-manager.ts, lines 49-152):
per-tier admission with boundary-respecting trimming, then the global
over-budget pass, then the `tokens > 0` output filter. -/
def BudgetManager.allocate (totalBudget : Nat) (items : List BudgetItem) :
    BudgetReport :=
  let p1 := BudgetManager.phase1 totalBudget items
  let allocations := p1.1
  let totalUsed := p1.2.1
  let originalTotal := p1.2.2
  let after :=
    if totalUsed > totalBudget then
      let r := BudgetManager.trimExcess allocations (totalUsed - totalBudget)
      (r.1, totalUsed - r.2)
    else (allocations, totalUsed)
  { totalBudget := totalBudget
    totalUsed := after.2
    savings := (originalTotal : Int) - (after.2 : Int)
    allocations := after.1.filter (fun a => a.tokens > 0) }

/- ======================================================================
   src/layers/active-retrieval.ts — UncertaintyDetector / ActiveRetrieval
   ====================================================================== -/

/-- Apostrophe character, used in the hedge phrases below. -/
def apos : Char := Char.ofNat 39

/-- Match a single alternation phrase at position `i` of the haystack,
case-insensitively (`/i`); when `bounded` is set, require JS `\b` word
boundaries at both ends (every phrase starts and ends with a word
character, so the boundary reduces to the neighbour not being a word
character). -/
def matchPhraseAt (hay : Str) (i : Nat) (phrase : Str) (bounded : Bool) : Bool :=
  let sub := (hay.drop i).take phrase.length
  (jsLower sub == phrase) &&
  (!bounded ||
    ((i == 0 || !isWordChar (hay.getD (i - 1) ' ')) &&
     (i + phrase.length == hay.length ||
      !isWordChar (hay.getD (i + phrase.length) ' '))))

/-- Scan positions left to right; at each position try the alternatives in
order; return the matched slice of the haystack (JS `match(...)[0]`). -/
def findMatchGo (phrases : List Str) (bounded : Bool) (hay : Str) :
    Nat → Nat → Option Str
  | 0, _ => Option.none
  | fuel + 1, i =>
    if i > hay.length then Option.none
    else
      match phrases.find? (fun p => matchPhraseAt hay i p bounded) with
      | some p => some ((hay.drop i).take p.length)
      | Option.none => findMatchGo phrases bounded hay fuel (i + 1)

/-- First match of an alternation regex over a haystack (leftmost position
wins; at equal positions the earlier alternative wins, as in JS). -/
def findFirstMatch (phrases : List Str) (bounded : Bool) (hay : Str) : Option Str :=
  findMatchGo phrases bounded hay (hay.length + 1) 0

/-- Alternatives of `UNCERTAIN_EN[0]`:
`\b(i think|i believe|maybe|perhaps|possibly|not sure|might be|could be|probably)\b`. -/
def uncertainEn0 : List Str :=
  [sl ("i think"), sl ("i believe"), sl ("maybe"), sl ("perhaps"),
   sl ("possibly"), sl ("not sure"), sl ("might be"), sl ("could be"),
   sl ("probably")]

/-- Alternatives of `UNCERTAIN_EN[1]`:
`\b(i('m| am) not (certain|sure|confident))\b`, expanded in JS
alternation order. -/
def uncertainEn1 : List Str :=
  [sl ("i") ++ [apos] ++ sl ("m not certain"),
   sl ("i") ++ [apos] ++ sl ("m not sure"),
   sl ("i") ++ [apos] ++ sl ("m not confident"),
   sl ("i am not certain"), sl ("i am not sure"), sl ("i am not confident")]

/-- Alternatives of `UNCERTAIN_EN[2]`:
`\b(as far as i know|to my knowledge|if i recall)\b`. -/
def uncertainEn2 : List Str :=
  [sl ("as far as i know"), sl ("to my knowledge"), sl ("if i recall")]

/-- Alternatives of `UNCERTAIN_ZH[0]` (plain substrings, no boundaries). -/
def uncertainZh0 : List Str :=
  [sl ("可能"), sl ("大概"), sl ("也许"), sl ("或许"), sl ("不确定"),
   sl ("不太清楚"), sl ("应该是"), sl ("估计"), sl ("差不多"), sl ("好像是")]

/-- Alternatives of `UNCERTAIN_ZH[1]`. -/
def uncertainZh1 : List Str :=
  [sl ("如果我没记错"), sl ("据我所知"), sl ("不太确定")]

/-- Alternatives of `IMPORTANT_PATTERNS[0]`:
`\b(how (much|many)|what (is|are) the (price|cost|version|date))\b`. -/
def importantP0 : List Str :=
  [sl ("how much"), sl ("how many"),
   sl ("what is the price"), sl ("what is the cost"),
   sl ("what is the version"), sl ("what is the date"),
   sl ("what are the price"), sl ("what are the cost"),
   sl ("what are the version"), sl ("what are the date")]

/-- Alternatives of `IMPORTANT_PATTERNS[1]`: `\b(is it (true|correct|accurate))\b`. -/
def importantP1 : List Str :=
  [sl ("is it true"), sl ("is it correct"), sl ("is it accurate")]

/-- Alternatives of `IMPORTANT_PATTERNS[2]` (plain substrings). -/
def importantP2 : List Str :=
  [sl ("多少钱"), sl ("什么版本"), sl ("什么时候"), sl ("是不是真的"), sl ("准确吗")]

/-- `IMPORTANT_PATTERNS.some(p => p.test(query))`. -/
def isImportantQuery (query : Str) : Bool :=
  (findFirstMatch importantP0 true query).isSome ||
  (findFirstMatch importantP1 true query).isSome ||
  (findFirstMatch importantP2 false query).isSome

/-- The four uncertainty levels of `UncertaintySignal`. -/
inductive UncertaintyLevel where
  | none
  | low
  | medium
  | high
deriving Repr, DecidableEq

/-- Numeric rank of an uncertainty level, for "at least" comparisons. -/
def UncertaintyLevel.rank : UncertaintyLevel → Nat
  | UncertaintyLevel.none => 0
  | UncertaintyLevel.low => 1
  | UncertaintyLevel.medium => 2
  | UncertaintyLevel.high => 3

/-- The `UncertaintySignal` record. -/
structure UncertaintySignal where
  level : UncertaintyLevel
  markers : List Str
  isImportantQuestion : Bool
deriving Repr, DecidableEq

/-- `UncertaintyDetector.detect` (src/layers/active-retrieval.ts,
lines 49-80): collect the first match of each of the five hedge patterns
(English then Chinese), test query importance, and derive the level from
the marker count. -/
def UncertaintyDetector.detect (output query : Str) : UncertaintySignal :=
  let markers :=
    ([findFirstMatch uncertainEn0 true output,
      findFirstMatch uncertainEn1 true output,
      findFirstMatch uncertainEn2 true output,
      findFirstMatch uncertainZh0 false output,
      findFirstMatch uncertainZh1 false output]).filterMap (fun x => x)
  let isImportantQuestion := isImportantQuery query
  let level :=
    if markers.length == 0 then UncertaintyLevel.none
    else if markers.length == 1 && !isImportantQuestion then UncertaintyLevel.low
    else if markers.length ≤ 2 || (markers.length == 1 && isImportantQuestion) then
      UncertaintyLevel.medium
    else UncertaintyLevel.high
  ⟨level, markers, isImportantQuestion⟩

/-- Separator class of the `normalize` helper in `isRepeatedQuestion`:
`[?？!！。.，,\s]+`. -/
def isRepSep (c : Char) : Bool :=
  c == '?' || c == '？' || c == '!' || c == '！' || c == '。' || c == '.' ||
  c == '，' || c == ',' || isJsSpace c

/-- Fuel-driven worker for `collapseRuns`. -/
def collapseRunsGo (p : Char → Bool) : Nat → Str → Str
  | 0, s => s
  | _ + 1, [] => []
  | fuel + 1, c :: rest =>
    if p c then ' ' :: collapseRunsGo p fuel (rest.dropWhile p)
    else c :: collapseRunsGo p fuel rest

/-- Replace every maximal run of separator characters by a single space
(JS `replace(/[?？!！。.，,\s]+/g, " ")`). -/
def collapseRuns (p : Char → Bool) (s : Str) : Str :=
  collapseRunsGo p (s.length + 1) s

/-- The `normalize` helper of `isRepeatedQuestion`:
`s.toLowerCase().replace(/[?？!！。.，,\s]+/g, " ").trim()`. -/
def normalizeQuery (s : Str) : Str :=
  jsTrim (collapseRuns isRepSep (jsLower s))

/-- `UncertaintyDetector.isRepeatedQuestion` (src/layers/active-retrieval.ts,
lines 85-102): > 60% word overlap with any of the last three queries.
JS `Set` of the current words is modelled by `dedup` (only membership and
cardinality are used). -/
def UncertaintyDetector.isRepeatedQuestion (currentQuery : Str)
    (recentQueries : List Str) : Bool :=
  if recentQueries.isEmpty then false
  else
    let current := normalizeQuery currentQuery
    let lastThree := recentQueries.drop (recentQueries.length - 3)
    lastThree.any (fun prev =>
      let prevNorm := normalizeQuery prev
      let currentWords := (splitOnChar ' ' current).dedup
      let prevWords := splitOnChar ' ' prevNorm
      let overlap := (prevWords.filter (fun w => currentWords.contains w)).length
      decide (JsNum.ofNat overlap /
        JsNum.ofNat (max currentWords.length prevWords.length) > 3 / 5))

/-- First alternative of the key-term regex of `crossVerify`
(`\b[A-Z][a-z]+\b`) at position `i`: returns the match length.  The
maximal lower-case run after the capital is forced (shorter runs cannot
restore the trailing boundary). -/
def matchCapWordAt (s : Str) (i : Nat) : Option Nat :=
  let c := s.getD i ' '
  if c.isUpper && (i == 0 || !isWordChar (s.getD (i - 1) ' ')) then
    let k := ((s.drop (i + 1)).takeWhile Char.isLower).length
    if k ≥ 1 && (i + 1 + k == s.length || !isWordChar (s.getD (i + 1 + k) ' '))
    then some (1 + k) else Option.none
  else Option.none

/-- Second alternative of the key-term regex (`\b\d+\.?\d*\b`) at position
`i`, with JS backtracking resolved: a digit run, optionally a dot and a
second digit run, ending at a `\b` boundary (which, after a bare dot,
means a word character must FOLLOW the dot). -/
def matchNumberAt (s : Str) (i : Nat) : Option Nat :=
  let c := s.getD i ' '
  if c.isDigit && (i == 0 || !isWordChar (s.getD (i - 1) ' ')) then
    let d := ((s.drop i).takeWhile Char.isDigit).length
    let p := i + d
    if p == s.length then some d
    else
      let cp := s.getD p ' '
      if cp == '.' then
        let e := ((s.drop (p + 1)).takeWhile Char.isDigit).length
        if e > 0 then
          let q := p + 1 + e
          if q == s.length || !isWordChar (s.getD q ' ') then some (d + 1 + e)
          else some (d + 1)
        else if p + 1 < s.length && isWordChar (s.getD (p + 1) ' ') then some (d + 1)
        else some d
      else if isWordChar cp then Option.none
      else some d
  else Option.none

/-- Global scan of `output.match(/\b[A-Z][a-z]+\b|\b\d+\.?\d*\b/g)`:
collect non-overlapping matches left to right. -/
def keyTermsGo (s : Str) : Nat → Nat → List Str
  | 0, _ => []
  | fuel + 1, i =>
    if i ≥ s.length then []
    else
      match matchCapWordAt s i with
      | some len => ((s.drop i).take len) :: keyTermsGo s fuel (i + len)
      | Option.none =>
        match matchNumberAt s i with
        | some len => ((s.drop i).take len) :: keyTermsGo s fuel (i + len)
        | Option.none => keyTermsGo s fuel (i + 1)

/-- The key terms (capitalised words and numbers) extracted from an
assistant output by `crossVerify`; `match` returning `null` is the empty
list. -/
def keyTerms (output : Str) : List Str :=
  keyTermsGo output (output.length + 1) 0

/-- `ActiveRetrieval.crossVerify` (src/layers/active-retrieval.ts,
lines 192-201): with no key terms the result is vacuously `true`;
otherwise at least 30% of the key terms must occur in the joined web
text. -/
def ActiveRetrieval.crossVerify (output : Str) (webResults : List Str) : Bool :=
  let terms := keyTerms output
  if terms.isEmpty then true
  else
    let combined := List.intercalate (sl (" ")) webResults
    let matched := terms.filter (fun t => containsSeq t combined)
    decide (JsNum.ofNat matched.length / JsNum.ofNat terms.length ≥ 3 / 10)

/-- The optional tool callbacks passed to `ActiveRetrieval.retrieve`.
They are modelled as total functions: the `try/catch` fallthrough for
throwing callbacks is outside this model. -/
structure RetrievalTools where
  memoryRecall : Option (Str → List Str)
  workspaceGrep : Option (Str → List Str)
  webSearch : Option (Str → List Str)

/-- The `ActiveRetrievalResult` record; `source` is carried as the string
the TS code produces. -/
structure ActiveRetrievalResult where
  source : Str
  findings : List Str
  verified : Bool
  newFacts : List Str
deriving Repr, DecidableEq

/-- `ActiveRetrieval.retrieve` (src/layers/active-retrieval.ts,
lines 111-187): query tracking, the skip gate for `none`/unimportant
`low`, then the memory → workspace → web chain, stopping at the first
non-empty result; web only for levels other than `low`, with
cross-verification gating the proposed facts.  Returns the result and the
updated `recentQueries` ring. -/
def ActiveRetrieval.retrieve (recentQueries : List Str) (query output : Str)
    (signal : UncertaintySignal) (tools : RetrievalTools) :
    ActiveRetrievalResult × List Str :=
  let recent0 := recentQueries ++ [query]
  let recent := if recent0.length > 10 then recent0.drop 1 else recent0
  if signal.level == UncertaintyLevel.none ||
     (signal.level == UncertaintyLevel.low && !signal.isImportantQuestion) then
    (⟨sl ("none"), [], false, []⟩, recent)
  else
    let step3 := fun (findings : List Str) =>
      if signal.level != UncertaintyLevel.low then
        match tools.webSearch with
        | some ws =>
          let results := ws query
          if results.length > 0 then
            let verified := ActiveRetrieval.crossVerify output results
            (⟨sl ("web"), findings ++ results, verified,
              if verified then
                (results.take 3).map (fun r => sl ("Web-verified: ") ++ r.take 200)
              else []⟩ : ActiveRetrievalResult)
          else ⟨sl ("none"), findings, false, []⟩
        | Option.none => ⟨sl ("none"), findings, false, []⟩
      else ⟨sl ("none"), findings, false, []⟩
    let step2 := fun (findings : List Str) =>
      match tools.workspaceGrep with
      | some wg =>
        let results := wg query
        if results.length > 0 then
          (⟨sl ("workspace"), findings ++ results, true,
            results.map (fun r => sl ("Verified from workspace: ") ++ r.take 200)⟩ :
            ActiveRetrievalResult)
        else step3 findings
      | Option.none => step3 findings
    let result :=
      match tools.memoryRecall with
      | some mr =>
        let memories := mr query
        if memories.length > 0 then
          (⟨sl ("memory"), memories, true, []⟩ : ActiveRetrievalResult)
        else step2 []
      | Option.none => step2 []
    (result, recent)

/- ======================================================================
   The agent_end hook (plugin entry, U-Mem escalation)
   ====================================================================== -/

/-- The uncertainty level the `agent_end` hook hands to the retrieval
chain (plugin entry, lines 295-317): detect on the last assistant/user
contents, check for a repeated question, and run retrieval only when the
level is not `none` or the question is repeated — with
`if (isRepeat) signal.level = "medium"` applied first.  `Option.none`
means the chain is not invoked at all. -/
def agentEndUsedLevel (assistantContent userContent : Str)
    (recentQueries : List Str) : Option UncertaintyLevel :=
  let signal := UncertaintyDetector.detect assistantContent userContent
  let isRepeat := UncertaintyDetector.isRepeatedQuestion userContent recentQueries
  if signal.level != UncertaintyLevel.none || isRepeat then
    some (if isRepeat then UncertaintyLevel.medium else signal.level)
  else Option.none

/- ======================================================================
   src/layers/episode-builder.ts — detectTopicSwitch
   ====================================================================== -/

/-- The topic markers of `EpisodeBuilder.detectTopicSwitch`
(`/换个话题|另外|顺便|by the way|btw|speaking of|另一个问题/i`). -/
def topicMarkers : List Str :=
  [sl ("换个话题"), sl ("另外"), sl ("顺便"), sl ("by the way"), sl ("btw"),
   sl ("speaking of"), sl ("另一个问题")]

/-- `EpisodeBuilder.detectTopicSwitch` (src/layers/episode-builder.ts,
lines 92-104): `false` without a previous message, otherwise test the
lower-cased current content against the marker alternation (the previous
content is lower-cased by the source but never used). -/
def EpisodeBuilder.detectTopicSwitch (currentMsg : Message)
    (previousMsg : Option Message) : Bool :=
  match previousMsg with
  | Option.none => false
  | some prev =>
    let curr := jsLower currentMsg.content
    let _prev := jsLower prev.content
    topicMarkers.any (fun m => containsSeq m curr)

/- ======================================================================
   src/layers/active-retrieval.ts — MemoryToolkit (AgeMem)
   ====================================================================== -/

/-- The `MemoryToolkit` instance state (`this.decayHalfLifeMs`). -/
structure MemoryToolkit where
  decayHalfLifeMs : JsNum
deriving Repr, DecidableEq

/-- A `MemoryDecision` record; the `action` string union and the optional
fields are carried as in the source. -/
structure MemoryDecision where
  action : Str
  reason : Str
  target : Option Str
  content : Option Str
  importance : Option JsNum
deriving Repr, DecidableEq

/-- The protected-dot placeholder `·` used while splitting sentences. -/
def midDot : Char := Char.ofNat 0xb7

/-- `output.replace(/v\d+\.\d+(\.\d+)?/g, m => m.replace(/\./g, "·"))`:
scan for version tokens and replace their dots by the placeholder;
matching is greedy and non-overlapping, continuing after each match. -/
def protectVersionsGo : Nat → Str → Str
  | 0, s => s
  | fuel + 1, s =>
    match s with
    | [] => []
    | c :: rest =>
      if c == 'v' then
        let d1 := rest.takeWhile Char.isDigit
        let r1 := rest.drop d1.length
        if d1.isEmpty || !(r1.headD ' ' == '.') then
          c :: protectVersionsGo fuel rest
        else
          let d2 := (r1.drop 1).takeWhile Char.isDigit
          let r2 := r1.drop (1 + d2.length)
          if d2.isEmpty then c :: protectVersionsGo fuel rest
          else
            let d3 := if r2.headD ' ' == '.' then (r2.drop 1).takeWhile Char.isDigit
                      else []
            if !d3.isEmpty then
              (c :: (d1 ++ [midDot] ++ d2 ++ [midDot] ++ d3)) ++
                protectVersionsGo fuel (r2.drop (1 + d3.length))
            else
              (c :: (d1 ++ [midDot] ++ d2)) ++ protectVersionsGo fuel r2
      else c :: protectVersionsGo fuel rest

/-- Version-dot protection over a whole string. -/
def protectVersions (s : Str) : Str := protectVersionsGo (s.length + 1) s

/-- `s.replace(/·/g, ".")`. -/
def restoreDots (s : Str) : Str :=
  s.map (fun c => if c == midDot then '.' else c)

/-- The sentence-ender class of the split regex `(?<=[.!?。！？])\s+`. -/
def sentEnder (c : Char) : Bool :=
  c == '.' || c == '!' || c == '?' || c == '。' || c == '！' || c == '？'

/-- `split(/(?<=[.!?。！？])\s+/)`: a delimiter is a maximal whitespace run
whose immediately preceding character is a sentence ender; the delimiter is
removed. -/
def splitSentGo : Nat → Str → Option Char → Str → List Str
  | 0, s, _, acc => [acc ++ s]
  | _ + 1, [], _, acc => [acc]
  | fuel + 1, c :: rest, prev, acc =>
    if isJsSpace c && (match prev with
                       | some p => sentEnder p
                       | Option.none => false) then
      acc :: splitSentGo fuel (rest.dropWhile isJsSpace) (some ' ') []
    else
      splitSentGo fuel rest (some c) (acc ++ [c])

/-- Sentence split of `extractNovelFacts`. -/
def splitSentences (s : Str) : List Str :=
  splitSentGo (s.length + 1) s Option.none []

/-- Maximal `\w+` runs of a string (used to decide `\b`-delimited keyword
membership: a keyword matches with boundaries iff it equals a maximal word
run). -/
def wordRunsGo : Nat → Str → List Str
  | 0, _ => []
  | fuel + 1, s =>
    match s with
    | [] => []
    | c :: rest =>
      if isWordChar c then
        ((c :: rest).takeWhile isWordChar) ::
          wordRunsGo fuel ((c :: rest).dropWhile isWordChar)
      else wordRunsGo fuel rest

/-- Maximal word-character runs. -/
def wordRuns (s : Str) : List Str := wordRunsGo (s.length + 1) s

/-- The English keywords of the fact-pattern regex
`\b(?:is|are|was|were|costs?|version|released|created|updated)\b`
(`costs?` expands to both forms). -/
def factKeywordsEn : List Str :=
  [sl ("is"), sl ("are"), sl ("was"), sl ("were"), sl ("cost"), sl ("costs"),
   sl ("version"), sl ("released"), sl ("created"), sl ("updated")]

/-- The Chinese substrings of the fact-pattern regex. -/
def factKeywordsZh : List Str :=
  [sl ("是"), sl ("为"), sl ("版本"), sl ("发布"), sl ("创建"), sl ("更新"),
   sl ("价格")]

/-- `factPattern.test(s)`: one of the English keywords occurs
boundary-delimited (case-insensitively), or one of the Chinese substrings
occurs. -/
def factPatternTest (s : Str) : Bool :=
  let lw := jsLower s
  (wordRuns lw).any (fun w => factKeywordsEn.contains w) ||
  factKeywordsZh.any (fun p => containsSeq p lw)

/-- `MemoryToolkit.extractNovelFacts` (src/layers/active-retrieval.ts):
sentence split with protected version dots, the factual filter
(pattern + length 15..300, first 10), and the ≥ 40%-overlap duplicate
filter against the joined lower-cased memory text. -/
def MemoryToolkit.extractNovelFacts (output : Str)
    (existingMemories : List Str) : List Str :=
  let sentences := (splitSentences (protectVersions output)).map restoreDots
  let candidates :=
    (sentences.filter (fun s =>
      factPatternTest s && s.length > 15 && s.length < 300)).take 10
  if existingMemories.isEmpty then candidates
  else
    let memText := jsLower (List.intercalate (sl (" ")) existingMemories)
    candidates.filter (fun fact =>
      let words := (splitRuns isJsSpace (jsLower fact)).filter
        (fun w => w.length > 2)
      if words.isEmpty then false
      else
        let overlap := (words.filter (fun w => containsSeq w memText)).length
        decide (overlap * 5 < words.length * 2))

/-- `/\d/.test(fact)`. -/
def hasDigit (s : Str) : Bool := s.any Char.isDigit

/-- `/v?\d+\.\d+/.test(fact)`: equivalent to the existence of a
digit-dot-digit triple (the optional `v` and the greedy `+` add nothing to
testability). -/
def hasVersionToken : Str → Bool
  | a :: b :: c :: rest =>
    (a.isDigit && b == '.' && c.isDigit) || hasVersionToken (b :: c :: rest)
  | _ => false

/-- `/[A-Z][a-z]+[A-Z]/.test(fact)`: an upper-case letter, a non-empty
lower-case run, then an upper-case letter. -/
def hasCamelCase : Str → Bool
  | [] => false
  | c :: rest =>
    (c.isUpper &&
      (let k := (rest.takeWhile Char.isLower).length
       decide (k ≥ 1) && (rest.getD k ' ').isUpper)) ||
    hasCamelCase rest

/-- The backtick character. -/
def btick : Char := Char.ofNat 96

/-- Inline-code test `/`[^`]+`/` (a backtick, one or more non-backticks,
a backtick). -/
def hasInlineCode : Str → Bool
  | [] => false
  | c :: rest =>
    (c == btick &&
      (let k := (rest.takeWhile (fun x => !(x == btick))).length
       decide (k ≥ 1) && rest.getD k ' ' == btick)) ||
    hasInlineCode rest

/-- `MemoryToolkit.estimateImportance` (src/layers/active-retrieval.ts):
0.5 base, boosts for digits, version tokens, ≥ 2 query-term overlaps,
CamelCase and inline code, rounded to 2 decimals and capped at 1. -/
def MemoryToolkit.estimateImportance (fact query : Str) : JsNum :=
  let score : JsNum := 1 / 2
  let score := if hasDigit fact then score + 1 / 10 else score
  let score := if hasVersionToken fact then score + 1 / 10 else score
  let queryWords :=
    ((splitRuns isJsSpace (jsLower query)).filter (fun w => w.length > 2)).dedup
  let factWords := splitRuns isJsSpace (jsLower fact)
  let overlap := (factWords.filter (fun w => queryWords.contains w)).length
  let score := if overlap ≥ 2 then score + 3 / 20 else score
  let score := if hasCamelCase fact then score + 1 / 20 else score
  let score := if hasInlineCode fact then score + 1 / 20 else score
  JsNum.minN 1 (⟨JsNum.round (score * 100), 1⟩ / 100)

/-- The English correction keywords of `isCorrection`
(`\b(no|wrong|incorrect|actually|not right)\b/i`). -/
def correctionEn : List Str :=
  [sl ("no"), sl ("wrong"), sl ("incorrect"), sl ("actually"), sl ("not right")]

/-- The Chinese correction substrings of `isCorrection`. -/
def correctionZh : List Str :=
  [sl ("不对"), sl ("错了"), sl ("不是这样"), sl ("纠正"), sl ("应该是"),
   sl ("更正")]

/-- `MemoryToolkit.isCorrection`: boundary-delimited English keyword
(case-insensitive) or Chinese substring. -/
def MemoryToolkit.isCorrection (text : Str) : Bool :=
  (findFirstMatch correctionEn true text).isSome ||
  correctionZh.any (fun p => containsSeq p text)

/-- The punctuation replaced by spaces inside `tokenize`
(`[，。！？,!?.：:；;]`). -/
def isTokPunct (c : Char) : Bool :=
  c == '，' || c == '。' || c == '！' || c == '？' || c == ',' || c == '!' ||
  c == '?' || c == '.' || c == '：' || c == ':' || c == '；' || c == ';'

/-- Lower-case ASCII letters and digits (`[a-z0-9]` after lower-casing). -/
def isLowerAlnum (c : Char) : Bool := c.isLower || c.isDigit

/-- Maximal `[a-z0-9]+` runs (JS `match(/[a-z0-9]+/g)`). -/
def alnumRunsGo : Nat → Str → List Str
  | 0, _ => []
  | fuel + 1, s =>
    match s with
    | [] => []
    | c :: rest =>
      if isLowerAlnum c then
        ((c :: rest).takeWhile isLowerAlnum) ::
          alnumRunsGo fuel ((c :: rest).dropWhile isLowerAlnum)
      else alnumRunsGo fuel rest

/-- Maximal `[a-z0-9]+` runs of a string. -/
def alnumRuns (s : Str) : List Str := alnumRunsGo (s.length + 1) s

/-- Character bigrams (the 2-character sliding window of `tokenize`). -/
def bigrams : Str → List Str
  | a :: b :: rest => [a, b] :: bigrams (b :: rest)
  | _ => []

/-- `MemoryToolkit.tokenize` (src/layers/active-retrieval.ts): lower-case,
punctuation → spaces, English `[a-z0-9]+` runs of length > 2, plus bigrams
of whatever remains after deleting `[a-z0-9\s]+`. -/
def MemoryToolkit.tokenize (text : Str) : List Str :=
  let cleaned := (jsLower text).map (fun c => if isTokPunct c then ' ' else c)
  let enWords := (alnumRuns cleaned).filter (fun w => w.length > 2)
  let cjk := cleaned.filter (fun c => !(isLowerAlnum c || isJsSpace c))
  enWords ++ bigrams cjk

/-- `MemoryToolkit.findContradicted`: memories sharing ≥ 2 tokens with the
correction, first two.  The JS `Set` of correction tokens is modelled by
`dedup` (membership only). -/
def MemoryToolkit.findContradicted (correction : Str) (memories : List Str) :
    List Str :=
  let corrSet := (MemoryToolkit.tokenize correction).dedup
  (memories.filter (fun mem =>
    ((MemoryToolkit.tokenize mem).filter (fun t => corrSet.contains t)).length ≥ 2)).take 2

/-- The per-memory word sets used by `detectCluster`. -/
def clusterWords (m : Str) : List Str :=
  (splitRuns isJsSpace (jsLower m)).filter (fun w => w.length > 2)

/-- The inner `for (j = i+1; …)` loop of `detectCluster`: greedily absorb
unused later memories with > 30% overlap (relative to the smaller word
set) into the cluster seeded at index `i`. -/
def clusterInner (memories : List Str) (iWords : List Str) (i : Nat) :
    List Str × List Nat → List Str × List Nat :=
  fun st =>
    ((List.range (memories.length - (i + 1))).map (fun k => k + (i + 1))).foldl
      (fun st j =>
        if st.2.contains j then st
        else
          let jWords := clusterWords (memories.getD j [])
          let overlap := (jWords.filter (fun w => iWords.contains w)).length
          if overlap * 10 > 3 * min iWords.length jWords.length then
            (st.1 ++ [memories.getD j []], st.2 ++ [j])
          else st)
      st

/-- The outer loop of `detectCluster` over seed indices (fuel-driven: the
fuel starts at `memories.length` and the index advances every step). -/
def clusterOuter (memories : List Str) : Nat → Nat → List Nat → List (List Str)
  | 0, _, _ => []
  | fuel + 1, i, used =>
    if i ≥ memories.length then []
    else
      if used.contains i then clusterOuter memories fuel (i + 1) used
      else
        let mi := memories.getD i []
        let iWords := (clusterWords mi).dedup
        let r := clusterInner memories iWords i ([mi], used ++ [i])
        let rest := clusterOuter memories fuel (i + 1) r.2
        if r.1.length ≥ 5 then r.1 :: rest else rest

/-- `MemoryToolkit.detectCluster` (src/layers/active-retrieval.ts): with
fewer than 5 memories no clusters; otherwise greedy single-link grouping
by > 30% word overlap, keeping groups of at least 5. -/
def MemoryToolkit.detectCluster (memories : List Str) : List (List Str) :=
  if memories.length < 5 then [] else clusterOuter memories memories.length 0 []

/-- `MemoryToolkit.decide` (src/layers/active-retrieval.ts, lines 457-500):
up to 3 `store` decisions from novel facts, `discard` decisions on user
corrections, and `summarize` decisions for clusters of at least 5 related
memories.  The toolkit instance `tk` and the ambient clock `now`
(`Date.now()`, which other methods of the class read) are passed
explicitly; the body of `decide` consults neither. -/
def MemoryToolkit.decide (tk : MemoryToolkit) (now : Nat)
    (userQuery assistantOutput : Str) (existingMemories : List Str) :
    List MemoryDecision :=
  let novelFacts := MemoryToolkit.extractNovelFacts assistantOutput existingMemories
  let storeDecisions := (novelFacts.take 3).map (fun fact =>
    (⟨sl ("store"), sl ("Novel factual information detected"), Option.none,
      some fact, some (MemoryToolkit.estimateImportance fact userQuery)⟩ :
      MemoryDecision))
  let discardDecisions :=
    if MemoryToolkit.isCorrection userQuery then
      (MemoryToolkit.findContradicted userQuery existingMemories).map (fun mem =>
        (⟨sl ("discard"), sl ("User correction contradicts stored memory"),
          some mem, Option.none, Option.none⟩ : MemoryDecision))
    else []
  let clusters := MemoryToolkit.detectCluster existingMemories
  let summarizeDecisions :=
    (clusters.filter (fun c => c.length ≥ 5)).map (fun cluster =>
      (⟨sl ("summarize"),
        sl (toString cluster.length) ++ sl (" related memories can be consolidated"),
        Option.none, some (List.intercalate (sl ("; ")) cluster),
        Option.none⟩ : MemoryDecision))
  storeDecisions ++ discardDecisions ++ summarizeDecisions

/- ======================================================================
   Concrete fixtures used by the counterexamples and witnesses
   ====================================================================== -/

/-- A theme holding three semantics (at `MIN_SEMANTICS_PER_THEME`). -/
def c2ThemeBig : Theme :=
  ⟨sl ("t1"), sl ("big"), [], [sl ("a"), sl ("b"), sl ("c")], 3, 0, some [1], []⟩

/-- A theme holding one semantic, with the same unit embedding. -/
def c2ThemeSmall : Theme :=
  ⟨sl ("t2"), sl ("small"), [], [sl ("d")], 1, 0, some [1], []⟩

/-- A semantic pointing at episode `e1`. -/
def fixSemantic : Semantic :=
  ⟨sl ("s1"), sl ("t1"), sl ("fact one"), [sl ("e1")], 0, 0, some [1], []⟩

/-- A theme owning `fixSemantic`. -/
def fixTheme : Theme :=
  ⟨sl ("t1"), sl ("topic"), [], [sl ("s1")], 1, 0, some [1], []⟩

/-- The episode referenced by `fixSemantic`. -/
def fixEpisode : Episode :=
  ⟨sl ("e1"), sl ("summary"), 0, 0, 1, sl ("s"), 0, Option.none, []⟩

/-- A one-theme, one-semantic, one-episode store. -/
def fixStorage : StorageState := ⟨[fixTheme], [fixSemantic], [fixEpisode]⟩

/-- Assistant output carrying three English hedge markers
("Maybe", "I am not certain", "As far as I know"). -/
def c3Output : Str :=
  sl ("Maybe it is five. I am not certain. As far as I know it changed.")

/-- A user query, repeated verbatim in the recent-query history. -/
def c3Query : Str := sl ("what is the project deadline")

/-- One workspace item whose content is 588 newline characters: every
line is empty (per-line estimate 0), yet the whole string estimates to
147 tokens, so line-based trimming cannot shrink it. -/
def c4Items : List BudgetItem :=
  [⟨sl ("workspace"), sl ("w"), List.replicate 588 (Char.ofNat 10)⟩]

/-- Two identity items overfilling the identity tier (60 of 600 tokens)
next to an untouched workspace item. -/
def c5Items : List BudgetItem :=
  [⟨sl ("identity"), sl ("A"), List.replicate 36 'a'⟩,
   ⟨sl ("identity"), sl ("B"),
     List.intercalate (sl ("\n")) (List.replicate 18 (List.replicate 12 'a'))⟩,
   ⟨sl ("workspace"), sl ("C"), sl ("hello")⟩]

/-- Two semantics with distinct ids and orthogonal embeddings. -/
def semA : Semantic := ⟨sl ("sa"), sl ("t"), sl ("alpha"), [], 0, 0, some [1, 0], []⟩

/-- Second split fixture semantic. -/
def semB : Semantic := ⟨sl ("sb"), sl ("t"), sl ("beta"), [], 0, 0, some [0, 1], []⟩

/-- A message whose content is exactly the claimed marker phrase. -/
def c8Msg : Message := ⟨sl ("user"), sl ("another question"), Option.none⟩

/-- A message containing the marker "by the way". -/
def c8MsgBtw : Message := ⟨sl ("user"), sl ("By the way, how is x"), Option.none⟩

/-- An arbitrary non-null previous message. -/
def c8Prev : Message := ⟨sl ("assistant"), sl ("hi"), Option.none⟩

/- ======================================================================
   THEOREMS
   ====================================================================== -/

/-- Claim C2 (code_bug evaluation): `shouldMerge` returns `true` on a pair
of identically-embedded themes of sizes 3 and 1, although the first theme
already has `MIN_SEMANTICS_PER_THEME` (3) semantics — the claim (and the
method's own doc comment, "merges when both are small") requires `false`
whenever at least one side has ≥ 3 members.  The guard in the source only
fires when BOTH sides have ≥ 3. -/
theorem claim_c2_code_eval :
    MIN_SEMANTICS_PER_THEME ≤ c2ThemeBig.semantic_ids.length ∧
    (ThemeManager.shouldMerge BetaMixtureGate.fresh c2ThemeBig c2ThemeSmall).1 = true := by
  decide

/-- Claim C3 (code_bug evaluation): on an assistant output with three
hedge markers the detector reports `high`, the question is a repeat of the
previous query, and the `agent_end` hook hands the retrieval chain level
`medium` — strictly BELOW the detected level, although the hook's own
comment says "escalate repeated questions" and the claim requires the
level never to drop. -/
theorem claim_c3_code_eval :
    (UncertaintyDetector.detect c3Output c3Query).level = UncertaintyLevel.high ∧
    UncertaintyDetector.isRepeatedQuestion c3Query [c3Query] = true ∧
    agentEndUsedLevel c3Output c3Query [c3Query] = some UncertaintyLevel.medium ∧
    UncertaintyLevel.rank UncertaintyLevel.medium <
      UncertaintyLevel.rank (UncertaintyDetector.detect c3Output c3Query).level := by
  decide

/-- Claim C4 (code_bug evaluation): `allocate` at total budget 146 with a
single workspace item of 588 newlines emits 147 tokens — the final report
exceeds `totalBudget`, because line-based trimming keeps every empty line
(per-line estimate 0) while the re-joined string still estimates to 147
tokens, and the over-budget pass can therefore not remove anything. -/
theorem claim_c4_code_eval :
    (BudgetManager.allocate 146 c4Items).totalUsed = 147 ∧
    (BudgetManager.allocate 146 c4Items).totalBudget = 146 ∧
    (BudgetManager.allocate 146 c4Items).totalBudget <
      (BudgetManager.allocate 146 c4Items).totalUsed := by
  decide

/-- Claim C8 counterexample: a current message whose content is exactly
"another question" (with a non-null previous message) is NOT detected as a
topic switch — the source's marker list has 另一个问题 but not the English
phrase "another question". -/
theorem claim_c8_counterexample :
    containsSeq (sl ("another question")) (jsLower c8Msg.content) = true ∧
    EpisodeBuilder.detectTopicSwitch c8Msg (some c8Prev) = false := by
  decide

/-- Claim C8 (amended): with a non-null previous message, a current
message containing any of the source's markers 换个话题, 另外, 顺便,
"by the way", "btw", "speaking of", 另一个问题 (case-insensitively) makes
`detectTopicSwitch` return `true`. -/
theorem claim_c8_amended (cur prev : Message) (m : Str)
    (hm : m ∈ topicMarkers)
    (hc : containsSeq m (jsLower cur.content) = true) :
    EpisodeBuilder.detectTopicSwitch cur (some prev) = true := by
  simp only [EpisodeBuilder.detectTopicSwitch, List.any_eq_true]
  exact ⟨m, hm, hc⟩

/-- Witness for C8 (amended): a message containing "By the way" does
trigger topic-switch detection. -/
theorem claim_c8_witness :
    EpisodeBuilder.detectTopicSwitch c8MsgBtw (some c8Prev) = true :=
  claim_c8_amended c8MsgBtw c8Prev (sl ("by the way")) (by decide) (by decide)

/-- Claim C9 (confirmed): `MemoryToolkit.decide` is deterministic in
(query, output, memories) — its result does not depend on the toolkit
instance state (`decayHalfLifeMs`) or on the ambient clock that the class
has access to through `Date.now()`: the translated body consults neither,
so two calls with the same three arguments always return the same
decision list. -/
theorem claim_c9 (tk₁ tk₂ : MemoryToolkit) (now₁ now₂ : Nat)
    (userQuery assistantOutput : Str) (existingMemories : List Str) :
    MemoryToolkit.decide tk₁ now₁ userQuery assistantOutput existingMemories =
    MemoryToolkit.decide tk₂ now₂ userQuery assistantOutput existingMemories := rfl

/-- Claim C1 counterexample: with the summariser answering " maybe "
(normalised form "MAYBE", outside {YES, PARTIAL, NO}), the retriever's
`stage2_decision` is NOT "PARTIAL" — the source's fallback branch
`decision === "PARTIAL" ? "PARTIAL" : "NO"` maps every unexpected
response to "NO". -/
theorem claim_c1_counterexample :
    ¬ ((jsTrim (sl (" maybe "))).map Char.toUpper ∈
        [sl ("YES"), sl ("PARTIAL"), sl ("NO")]) ∧
    (TopDownRetriever.retrieve fixStorage 500 [1] (sl ("q"))
      (fun _ => sl (" maybe "))).stage2_decision ≠ sl ("PARTIAL") ∧
    (TopDownRetriever.retrieve fixStorage 500 [1] (sl ("q"))
      (fun _ => sl (" maybe "))).stage2_decision = sl ("NO") := by
  decide

/-- Claim C1 (amended): for every Stage II summariser response whose
trimmed, upper-cased form is not YES, PARTIAL or NO, the Stage II decision
is "NO" (not "PARTIAL" as the spec states); the hypothesis excluding "NO"
itself mirrors the claim's premise and is not needed by the code, which
returns "NO" for everything except "YES" and "PARTIAL". -/
theorem claim_c1_amended (st : StorageState) (tokenBudget : JsNum)
    (queryText : Str) (semantics : List Semantic) (response : Str)
    (h1 : (jsTrim response).map Char.toUpper ≠ sl ("YES"))
    (h2 : (jsTrim response).map Char.toUpper ≠ sl ("PARTIAL"))
    (h3 : (jsTrim response).map Char.toUpper ≠ sl ("NO")) :
    (TopDownRetriever.stageII st tokenBudget queryText semantics
      (fun _ => response)).decision = sl ("NO") := by
  simp only [TopDownRetriever.stageII]
  rw [if_neg (by simpa using h1), if_neg (by simpa using h2)]

/-- Witness for C1 (amended) at the response " maybe ". -/
theorem claim_c1_witness :
    (TopDownRetriever.stageII fixStorage 500 (sl ("q")) [fixSemantic]
      (fun _ => sl (" maybe "))).decision = sl ("NO") :=
  claim_c1_amended fixStorage 500 (sl ("q")) [fixSemantic] (sl (" maybe "))
    (by decide) (by decide) (by decide)

/-- Claim C5 counterexample: at total budget 600 the identity item "B" is
emitted with its `trimmed` flag set (the identity tier's own 60-token
budget overflows) while the workspace item "C" survives untrimmed — an
identity item is trimmed although no non-identity item was dropped. -/
theorem claim_c5_counterexample :
    ((BudgetManager.allocate 600 c5Items).allocations.any
      (fun a => a.tier == sl ("identity") && a.trimmed)) = true ∧
    ((BudgetManager.allocate 600 c5Items).allocations.any
      (fun a => !(a.tier == sl ("identity")) && !a.trimmed &&
                decide (0 < a.tokens))) = true := by
  decide

/-- Helper for C5: the over-budget pass leaves the sublist of
identity-tier allocations untouched (it skips identity entries, and the
entries it rewrites keep their non-identity tier). -/
theorem phase2Go_filter_identity (excess : Nat) :
    ∀ (l : List BudgetAllocation) (t : Nat),
      (BudgetManager.phase2Go excess l t).1.filter
        (fun a => a.tier == sl ("identity")) =
      l.filter (fun a => a.tier == sl ("identity")) := by
  intro l
  induction l with
  | nil => intro t; rfl
  | cons alloc rest ih =>
    intro t
    simp only [BudgetManager.phase2Go]
    by_cases h1 : t ≥ excess
    · simp [h1]
    · simp only [if_neg h1]
      by_cases h2 : alloc.tier == sl ("identity")
      · simp [h2, ih]
      · by_cases h3 : min alloc.tokens (excess - t) ≥ alloc.tokens
        · simp [h2, h3, List.filter_cons, ih]
        · simp [h2, h3, List.filter_cons, ih]

/-- Claim C5 (amended): in the final over-budget pass, identity-tier
allocations are never modified — the identity-tier sublist of the trimmed
allocation list is exactly the identity-tier sublist of its input (same
contents, tokens and `trimmed` flags).  Identity items can still be
trimmed or dropped EARLIER, by the per-tier admission loop, when the
identity tier's own 10% budget overflows (see the counterexample). -/
theorem claim_c5_amended (allocations : List BudgetAllocation) (excess : Nat) :
    (BudgetManager.trimExcess allocations excess).1.filter
      (fun a => a.tier == sl ("identity")) =
    allocations.filter (fun a => a.tier == sl ("identity")) := by
  simp only [BudgetManager.trimExcess]
  rw [List.filter_reverse, phase2Go_filter_identity, List.filter_reverse,
    List.reverse_reverse]

/-- Claim C10 (confirmed): when the retrieval chain reaches the web step
(level medium or high, no memory/workspace tools) and the assistant output
has NO capitalised-word or numeric key terms, cross-verification is
vacuous: any non-empty web result set comes back `verified = true`, with
the first three snippets proposed as new facts. -/
theorem claim_c10 (recentQueries : List Str) (query output : Str)
    (results : List Str) (signal : UncertaintySignal)
    (hlev : signal.level = UncertaintyLevel.medium ∨
            signal.level = UncertaintyLevel.high)
    (hres : results ≠ [])
    (hterms : keyTerms output = []) :
    (ActiveRetrieval.retrieve recentQueries query output signal
      ⟨Option.none, Option.none, some (fun _ => results)⟩).1.source = sl ("web") ∧
    (ActiveRetrieval.retrieve recentQueries query output signal
      ⟨Option.none, Option.none, some (fun _ => results)⟩).1.verified = true ∧
    (ActiveRetrieval.retrieve recentQueries query output signal
      ⟨Option.none, Option.none, some (fun _ => results)⟩).1.newFacts =
      (results.take 3).map (fun r => sl ("Web-verified: ") ++ r.take 200) := by
  have hskip : (signal.level == UncertaintyLevel.none ||
      (signal.level == UncertaintyLevel.low && !signal.isImportantQuestion)) = false := by
    rcases hlev with h | h <;> simp [h]
  have hlow : (signal.level != UncertaintyLevel.low) = true := by
    rcases hlev with h | h <;> simp [h]
  have hlen : 0 < results.length := List.length_pos.mpr hres
  have hverify : ActiveRetrieval.crossVerify output results = true := by
    simp [ActiveRetrieval.crossVerify, hterms]
  simp [ActiveRetrieval.retrieve, hskip, hlow, hlen, hverify]

/-- Witness for C10: a medium-uncertainty signal, an output with no
capitals or digits, and two web snippets. -/
theorem claim_c10_witness :
    (ActiveRetrieval.retrieve [] (sl ("how much")) (sl ("hello there friend"))
      ⟨UncertaintyLevel.medium, [sl ("maybe")], true⟩
      ⟨Option.none, Option.none,
       some (fun _ => [sl ("answer one"), sl ("answer two")])⟩).1.source = sl ("web") ∧
    (ActiveRetrieval.retrieve [] (sl ("how much")) (sl ("hello there friend"))
      ⟨UncertaintyLevel.medium, [sl ("maybe")], true⟩
      ⟨Option.none, Option.none,
       some (fun _ => [sl ("answer one"), sl ("answer two")])⟩).1.verified = true ∧
    (ActiveRetrieval.retrieve [] (sl ("how much")) (sl ("hello there friend"))
      ⟨UncertaintyLevel.medium, [sl ("maybe")], true⟩
      ⟨Option.none, Option.none,
       some (fun _ => [sl ("answer one"), sl ("answer two")])⟩).1.newFacts =
      ([sl ("answer one"), sl ("answer two")].take 3).map
        (fun r => sl ("Web-verified: ") ++ r.take 200) :=
  claim_c10 [] (sl ("how much")) (sl ("hello there friend"))
    [sl ("answer one"), sl ("answer two")]
    ⟨UncertaintyLevel.medium, [sl ("maybe")], true⟩
    (Or.inl rfl) (by decide) (by decide)

/-- Helper for C6: after at least one 2-means iteration the two groups are
a filter/complement split of the input semantics. -/
theorem kmeansLoop_split (semantics : List Semantic) :
    ∀ (n : Nat) (c : List JsNum × List JsNum),
      ∃ p : Semantic → Bool,
        (ThemeManager.kmeansLoop semantics (n + 1) c).1 =
          (semantics.filter p, semantics.filter (fun s => ! p s)) := by
  intro n
  induction n with
  | zero =>
    intro c
    exact ⟨fun s =>
      decide (cosineSimilarity (semEmb s) c.2 ≤ cosineSimilarity (semEmb s) c.1),
      rfl⟩
  | succ m ih =>
    intro c
    exact ih (ThemeManager.kmeansStep semantics c).2


/-- Helper for C6: the non-empty-group enforcement preserves the combined
contents of two groups partitioning the semantics, and with at least two
semantics it returns two non-empty groups. -/
theorem ensureNonEmpty_spec (semantics g1 g2 : List Semantic)
    (hperm : (g1 ++ g2).Perm semantics) (hne : semantics ≠ []) :
    ((ThemeManager.ensureNonEmpty g1 g2).1 ++
      (ThemeManager.ensureNonEmpty g1 g2).2).Perm semantics ∧
    (2 ≤ semantics.length →
      (ThemeManager.ensureNonEmpty g1 g2).1 ≠ [] ∧
      (ThemeManager.ensureNonEmpty g1 g2).2 ≠ []) := by
  have hlen := hperm.length_eq
  have hslen : 1 ≤ semantics.length := by
    cases hsem : semantics with
    | nil => exact absurd hsem hne
    | cons a l => simp
  by_cases h1 : g1 = []
  · subst h1
    rw [List.nil_append] at hperm hlen
    have hg2 : g2 ≠ [] := by
      intro h
      rw [h] at hlen
      simp at hlen
      omega
    have hx : g2.getLastD dfltSemantic = g2.getLast hg2 := by
      rw [List.getLastD_eq_getLast?, List.getLast?_eq_getLast g2 hg2]
      rfl
    have hsplit : g2.dropLast ++ [g2.getLastD dfltSemantic] = g2 := by
      rw [hx]
      exact List.dropLast_append_getLast hg2
    by_cases h2 : g2.dropLast = []
    · have hone : g2 = [g2.getLastD dfltSemantic] := by
        have h3 := hsplit
        rw [h2] at h3
        simpa using h3.symm
      have hres : ThemeManager.ensureNonEmpty [] g2 =
          ([], [g2.getLastD dfltSemantic]) := by
        simp [ThemeManager.ensureNonEmpty, h2]
      rw [hres]
      constructor
      · show (([] : List Semantic) ++ [g2.getLastD dfltSemantic]).Perm semantics
        rw [List.nil_append, ← hone]
        exact hperm
      · intro hlen2
        exfalso
        have : g2.length = 1 := by rw [hone]; rfl
        omega
    · have hres : ThemeManager.ensureNonEmpty [] g2 =
          ([g2.getLastD dfltSemantic], g2.dropLast) := by
        simp [ThemeManager.ensureNonEmpty, h2]
      rw [hres]
      constructor
      · show ([g2.getLastD dfltSemantic] ++ g2.dropLast).Perm semantics
        refine List.Perm.trans ?_ hperm
        refine List.Perm.trans List.perm_append_comm ?_
        rw [hsplit]
      · exact fun _ => ⟨by simp, h2⟩
  · by_cases h2 : g2 = []
    · subst h2
      rw [List.append_nil] at hperm hlen
      have hx : g1.getLastD dfltSemantic = g1.getLast h1 := by
        rw [List.getLastD_eq_getLast?, List.getLast?_eq_getLast g1 h1]
        rfl
      have hsplit : g1.dropLast ++ [g1.getLastD dfltSemantic] = g1 := by
        rw [hx]
        exact List.dropLast_append_getLast h1
      have hres : ThemeManager.ensureNonEmpty g1 [] =
          (g1.dropLast, [g1.getLastD dfltSemantic]) := by
        simp [ThemeManager.ensureNonEmpty, h1]
      rw [hres]
      constructor
      · show (g1.dropLast ++ [g1.getLastD dfltSemantic]).Perm semantics
        rw [hsplit]
        exact hperm
      · intro hlen2
        have hdl : g1.dropLast.length = g1.length - 1 := List.length_dropLast g1
        constructor
        · show g1.dropLast ≠ []
          intro h
          rw [h] at hdl
          simp at hdl
          omega
        · show ([g1.getLastD dfltSemantic] : List Semantic) ≠ []
          simp
    · have hres : ThemeManager.ensureNonEmpty g1 g2 = (g1, g2) := by
        simp [ThemeManager.ensureNonEmpty, h1, h2]
      rw [hres]
      exact ⟨hperm, fun _ => ⟨h1, h2⟩⟩

/-- Claim C6 (confirmed): `splitTheme` on a non-empty member list returns
two themes whose `semantic_ids`, taken together, are a permutation of the
input semantics' ids (hence their union is exactly the input id set); when
the input ids are distinct the two lists are disjoint, and with at least
two members both children are non-empty. -/
theorem claim_c6 (theme : Theme) (semantics : List Semantic)
    (llmCall : Str → Str) (id1 id2 : Str) (now : Nat)
    (hne : semantics ≠ []) :
    ((ThemeManager.splitTheme theme semantics llmCall id1 id2 now).1.semantic_ids ++
      (ThemeManager.splitTheme theme semantics llmCall id1 id2 now).2.semantic_ids).Perm
      (semantics.map (fun s => s.semantic_id)) ∧
    ((semantics.map (fun s => s.semantic_id)).Nodup →
      ∀ i ∈ (ThemeManager.splitTheme theme semantics llmCall id1 id2 now).1.semantic_ids,
        i ∉ (ThemeManager.splitTheme theme semantics llmCall id1 id2 now).2.semantic_ids) ∧
    (2 ≤ semantics.length →
      (ThemeManager.splitTheme theme semantics llmCall id1 id2 now).1.semantic_ids ≠ [] ∧
      (ThemeManager.splitTheme theme semantics llmCall id1 id2 now).2.semantic_ids ≠ []) := by
  obtain ⟨p, hp⟩ := kmeansLoop_split semantics 2
    (semEmb (semantics.headD dfltSemantic),
     semEmb (semantics.getD (semantics.length - 1) dfltSemantic))
  have hids1 : (ThemeManager.splitTheme theme semantics llmCall id1 id2 now).1.semantic_ids =
      (ThemeManager.ensureNonEmpty
        (ThemeManager.kmeansLoop semantics 3
          (semEmb (semantics.headD dfltSemantic),
           semEmb (semantics.getD (semantics.length - 1) dfltSemantic))).1.1
        (ThemeManager.kmeansLoop semantics 3
          (semEmb (semantics.headD dfltSemantic),
           semEmb (semantics.getD (semantics.length - 1) dfltSemantic))).1.2).1.map
        (fun s => s.semantic_id) := rfl
  have hids2 : (ThemeManager.splitTheme theme semantics llmCall id1 id2 now).2.semantic_ids =
      (ThemeManager.ensureNonEmpty
        (ThemeManager.kmeansLoop semantics 3
          (semEmb (semantics.headD dfltSemantic),
           semEmb (semantics.getD (semantics.length - 1) dfltSemantic))).1.1
        (ThemeManager.kmeansLoop semantics 3
          (semEmb (semantics.headD dfltSemantic),
           semEmb (semantics.getD (semantics.length - 1) dfltSemantic))).1.2).2.map
        (fun s => s.semantic_id) := rfl
  rw [hids1, hids2]
  rw [show (3 : Nat) = 2 + 1 from rfl] at *
  rw [hp]
  have hperm0 : ((semantics.filter p) ++ (semantics.filter (fun s => ! p s))).Perm
      semantics := List.filter_append_perm p semantics
  obtain ⟨hPerm, hNe⟩ := ensureNonEmpty_spec semantics
    (semantics.filter p) (semantics.filter (fun s => ! p s)) hperm0 hne
  refine ⟨?_, ?_, ?_⟩
  · rw [← List.map_append]
    exact hPerm.map _
  · intro hnodup i hi1 hi2
    have hnd2 : (((ThemeManager.ensureNonEmpty (semantics.filter p)
        (semantics.filter (fun s => ! p s))).1 ++
        (ThemeManager.ensureNonEmpty (semantics.filter p)
          (semantics.filter (fun s => ! p s))).2).map
        (fun s => s.semantic_id)).Nodup :=
      ((hPerm.map (fun s => s.semantic_id)).nodup_iff).mpr hnodup
    rw [List.map_append] at hnd2
    exact (List.nodup_append.mp hnd2).2.2 hi1 hi2
  · intro hlen
    obtain ⟨h1, h2⟩ := hNe hlen
    exact ⟨by simpa using h1, by simpa using h2⟩

/-- Witness for C6 on two semantics with distinct ids and orthogonal unit
embeddings. -/
theorem claim_c6_witness :
    ((ThemeManager.splitTheme fixTheme [semA, semB] (fun _ => sl ("n"))
        (sl ("i1")) (sl ("i2")) 0).1.semantic_ids ++
      (ThemeManager.splitTheme fixTheme [semA, semB] (fun _ => sl ("n"))
        (sl ("i1")) (sl ("i2")) 0).2.semantic_ids).Perm
      ([semA, semB].map (fun s => s.semantic_id)) ∧
    (∀ i ∈ (ThemeManager.splitTheme fixTheme [semA, semB] (fun _ => sl ("n"))
        (sl ("i1")) (sl ("i2")) 0).1.semantic_ids,
      i ∉ (ThemeManager.splitTheme fixTheme [semA, semB] (fun _ => sl ("n"))
        (sl ("i1")) (sl ("i2")) 0).2.semantic_ids) ∧
    ((ThemeManager.splitTheme fixTheme [semA, semB] (fun _ => sl ("n"))
        (sl ("i1")) (sl ("i2")) 0).1.semantic_ids ≠ [] ∧
      (ThemeManager.splitTheme fixTheme [semA, semB] (fun _ => sl ("n"))
        (sl ("i1")) (sl ("i2")) 0).2.semantic_ids ≠ []) := by
  have h := claim_c6 fixTheme [semA, semB] (fun _ => sl ("n"))
    (sl ("i1")) (sl ("i2")) 0 (by decide)
  exact ⟨h.1, h.2.1 (by decide), h.2.2 (by decide)⟩

/-- Helper for C7: the episode-budget loop only keeps episodes from its
input list. -/
theorem keepWithinBudget_subset (budget : JsNum) :
    ∀ (l : List Episode) (t : JsNum) (ep : Episode),
      ep ∈ keepWithinBudget budget l t → ep ∈ l := by
  intro l
  induction l with
  | nil => intro t ep h; simpa [keepWithinBudget] using h
  | cons e rest ih =>
    intro t ep h
    simp only [keepWithinBudget] at h
    by_cases hc : t + JsNum.ofNat (episodeTokens e) > budget
    · rw [if_pos hc] at h
      simp at h
    · rw [if_neg hc] at h
      rcases List.mem_cons.mp h with h1 | h1
      · exact h1 ▸ List.mem_cons_self e rest
      · exact List.mem_cons_of_mem e (ih _ ep h1)

/-- Helper for C7: episodes fetched by id carry one of the requested ids. -/
theorem getEpisodesByIds_mem (st : StorageState) (ids : List Str) (ep : Episode)
    (h : ep ∈ StorageLayer.getEpisodesByIds st ids) :
    ep.episode_id ∈ ids := by
  simp only [StorageLayer.getEpisodesByIds] at h
  by_cases he : ids.isEmpty
  · rw [if_pos he] at h
    simp at h
  · rw [if_neg he] at h
    have := (List.mem_filter.mp h).2
    simpa using this

/-- Helper for C7: first-occurrence deduplication only returns elements of
its input. -/
theorem dedupFirstAux_subset :
    ∀ (l seen : List Str) (x : Str), x ∈ dedupFirstAux l seen → x ∈ l := by
  intro l
  induction l with
  | nil => intro seen x h; simpa [dedupFirstAux] using h
  | cons a rest ih =>
    intro seen x h
    simp only [dedupFirstAux] at h
    by_cases hc : seen.contains a
    · rw [if_pos hc] at h
      exact List.mem_cons_of_mem a (ih _ x h)
    · rw [if_neg hc] at h
      rcases List.mem_cons.mp h with h1 | h1
      · exact h1 ▸ List.mem_cons_self a rest
      · exact List.mem_cons_of_mem a (ih _ x h1)

/-- Helper for C7: Stage II either answers YES with no episodes, or every
returned episode is referenced by one of the passed semantics. -/
theorem stageII_spec (st : StorageState) (tokenBudget : JsNum)
    (queryText : Str) (semantics : List Semantic) (llmCall : Str → Str) :
    ((TopDownRetriever.stageII st tokenBudget queryText semantics llmCall).decision
        = sl ("YES") →
      (TopDownRetriever.stageII st tokenBudget queryText semantics llmCall).episodes
        = []) ∧
    (∀ ep ∈ (TopDownRetriever.stageII st tokenBudget queryText semantics
        llmCall).episodes,
      ∃ s ∈ semantics, ep.episode_id ∈ s.episode_ids) := by
  simp only [TopDownRetriever.stageII]
  by_cases hd : ((jsTrim (llmCall (stageIIPrompt queryText semantics))).map
      Char.toUpper) == sl ("YES")
  · rw [if_pos hd]
    exact ⟨fun _ => rfl, by intro ep h; simp at h⟩
  · rw [if_neg hd]
    constructor
    · intro h
      exfalso
      by_cases hp : ((jsTrim (llmCall (stageIIPrompt queryText semantics))).map
          Char.toUpper) == sl ("PARTIAL")
      · rw [if_pos hp] at h
        have h2 : sl ("PARTIAL") = sl ("YES") := h
        exact absurd h2 (by decide)
      · rw [if_neg hp] at h
        have h2 : sl ("NO") = sl ("YES") := h
        exact absurd h2 (by decide)
    · intro ep hep
      have h1 := keepWithinBudget_subset _ _ _ ep hep
      have h2 := getEpisodesByIds_mem st _ ep h1
      have h3 : ep.episode_id ∈
          ((semantics.map (fun s => s.episode_ids)).flatten) :=
        dedupFirstAux_subset _ [] _ h2
      rcases List.mem_flatten.mp h3 with ⟨l, hl, hmem⟩
      rcases List.mem_map.mp hl with ⟨s, hs, hseq⟩
      exact ⟨s, hs, hseq ▸ hmem⟩

/-- Claim C7 (confirmed): whenever the Stage II decision of a retrieval is
YES the returned episode list is empty, and on PARTIAL or NO every
returned episode's id occurs in the `episode_ids` of one of the returned
semantics. -/
theorem claim_c7 (st : StorageState) (tokenBudget : JsNum)
    (queryEmbedding : List JsNum) (queryText : Str) (llmCall : Str → Str) :
    ((TopDownRetriever.retrieve st tokenBudget queryEmbedding queryText
        llmCall).stage2_decision = sl ("YES") →
      (TopDownRetriever.retrieve st tokenBudget queryEmbedding queryText
        llmCall).episodes = []) ∧
    (((TopDownRetriever.retrieve st tokenBudget queryEmbedding queryText
        llmCall).stage2_decision = sl ("PARTIAL") ∨
      (TopDownRetriever.retrieve st tokenBudget queryEmbedding queryText
        llmCall).stage2_decision = sl ("NO")) →
      ∀ ep ∈ (TopDownRetriever.retrieve st tokenBudget queryEmbedding queryText
          llmCall).episodes,
        ∃ s ∈ (TopDownRetriever.retrieve st tokenBudget queryEmbedding queryText
            llmCall).semantics,
          ep.episode_id ∈ s.episode_ids) := by
  simp only [TopDownRetriever.retrieve]
  by_cases hs : (TopDownRetriever.stageI st queryEmbedding).2.isEmpty
  · rw [if_pos hs]
    exact ⟨fun _ => rfl, by intro _ ep h; simp at h⟩
  · rw [if_neg hs]
    obtain ⟨hyes, href⟩ := stageII_spec st tokenBudget queryText
      (TopDownRetriever.stageI st queryEmbedding).2 llmCall
    exact ⟨hyes, fun _ => href⟩

/-- Witness for C7: on the one-theme store, a YES summariser yields no
episodes, and with a NO summariser the returned episode is referenced by
the returned semantic. -/
theorem claim_c7_witness :
    (TopDownRetriever.retrieve fixStorage 500 [1] (sl ("q"))
      (fun _ => sl ("YES"))).episodes = [] ∧
    (∀ ep ∈ (TopDownRetriever.retrieve fixStorage 500 [1] (sl ("q"))
        (fun _ => sl ("NO"))).episodes,
      ∃ s ∈ (TopDownRetriever.retrieve fixStorage 500 [1] (sl ("q"))
          (fun _ => sl ("NO"))).semantics,
        ep.episode_id ∈ s.episode_ids) :=
  ⟨(claim_c7 fixStorage 500 [1] (sl ("q")) (fun _ => sl ("YES"))).1 (by decide),
   (claim_c7 fixStorage 500 [1] (sl ("q")) (fun _ => sl ("NO"))).2
     (Or.inr (by decide))⟩
